import Mathlib

/-!
# Verification of the symptom-tracker backend's auth/session layer

Shallow embedding of `src/main.go` (ArvoyaDev/symptom-tracker-backend):
the CORS middleware, the rate-limit middleware, the token-auth middleware,
and the Cognito identity-lifecycle handlers (sign-up, confirm-signup,
request-verification-code, sign-in, refresh-token, sign-out,
forgot-password, confirm-forgot-password).

External collaborators (the JWK fetch, the JWT parser, the Cognito client,
the JSON unmarshaller, the secret-hash function living in `internal/auth`)
are passed in as explicit parameters: each handler receives the outcome of
the external call it would make, and emits an `Event.providerCall` at the
exact program point where the Go code performs the network call, so that
"the provider is not called" is the absence of that event.
-/

namespace SymptomTracker

/-- Go `http.SameSite` values as used in `main.go` (`http.SameSiteNoneMode`). -/
inductive SameSite where
  | defaultMode
  | laxMode
  | strictMode
  | noneMode
deriving DecidableEq, Repr

/-- Go `http.Cookie` as constructed in `main.go`.  `expires := none` models the
zero `time.Time` (attribute omitted); `some 0` models `time.Unix(0, 0)`.
`maxAge := 0` models the Go zero value (attribute omitted). -/
structure Cookie where
  name : String
  value : String
  path : String := ""
  httpOnly : Bool := false
  secure : Bool := false
  sameSite : SameSite := .defaultMode
  expires : Option Int := none
  maxAge : Int := 0
deriving DecidableEq, Repr

/-- An HTTP response as the handlers build it: a status code, the headers set
on the writer, the cookies emitted via `http.SetCookie`, and the body. -/
structure Response where
  status : Nat
  headers : List (String × String) := []
  cookies : List Cookie := []
  body : String := ""
deriving DecidableEq, Repr

/-- Go `http.Error(w, msg, code)`: sets the status and writes `msg`
followed by a newline. -/
def httpError (msg : String) (code : Nat) : Response :=
  { status := code, body := msg ++ "\n" }

/-- An inbound HTTP request: method, headers, cookies. -/
structure Request where
  method : String := ""
  headers : List (String × String) := []
  cookies : List (String × String) := []

/-- Go `r.Header.Get(k)`: the first value for the key, or `""` when absent. -/
def headerGet (r : Request) (k : String) : String :=
  ((r.headers.find? (fun p => p.1 = k)).map Prod.snd).getD ""

/-- Go `r.Cookie(k)`: the cookie value, or an error (`none`) when absent. -/
def requestCookie (r : Request) (k : String) : Option String :=
  (r.cookies.find? (fun p => p.1 = k)).map Prod.snd

/-- Look a key up in a response's header list (first match wins, as a client
reading the first occurrence would). -/
def headerLookup (hs : List (String × String)) (k : String) : Option String :=
  (hs.find? (fun p => p.1 = k)).map Prod.snd

/-- Observable external effects of a handler.  `providerCall` is emitted at
each program point where `main.go` calls the Cognito identity provider. -/
inductive Event where
  | providerCall
deriving DecidableEq, Repr

/-! ## CORS middleware (`corsMiddleware`, main.go lines 103–128) -/

/-- The fixed origin allow-set of `corsMiddleware` (the Go map literal with
`true` values). -/
def allowedOrigins : List String :=
  [ "https://symptom-log.netlify.app"
  , "https://myhealthtrackers.com"
  , "http://localhost:5173"
  , "http://127.0.0.1:5173" ]

/-- The headers `corsMiddleware` sets on every response before dispatch:
`Access-Control-Allow-Origin` echoed only for allowlisted origins, then the
three unconditional headers (values verbatim from the source, including the
trailing space in the methods list). -/
def corsHeaders (origin : String) : List (String × String) :=
  (if origin ∈ allowedOrigins then
    [("Access-Control-Allow-Origin", origin)]
  else []) ++
  [ ("Access-Control-Allow-Credentials", "true")
  , ("Access-Control-Allow-Methods", "GET, POST ")
  , ("Access-Control-Allow-Headers", "Content-Type, Authorization") ]

/-- `corsMiddleware`: sets the CORS headers, answers `OPTIONS` with a bare
200 without dispatching, otherwise dispatches to `next`.  The returned `Bool`
records whether `next` was invoked. -/
def corsMiddleware (next : Request → Response) (r : Request) : Response × Bool :=
  let origin := headerGet r "Origin"
  if r.method = "OPTIONS" then
    ({ status := 200, headers := corsHeaders origin, body := "" }, false)
  else
    let resp := next r
    ({ resp with headers := corsHeaders origin ++ resp.headers }, true)

/-! ## Rate-limit middleware (`rateLimitMiddleware`, main.go lines 130–141) -/

/-- `rateLimitMiddleware`: when the shared limiter denies the request, reply
429 `rate limit exceeded` and do no further work; otherwise dispatch.  The
limiter's admission decision for this request is the `allow` parameter; the
`Bool` in the result records whether anything downstream ran. -/
def rateLimitMiddleware (allow : Bool) (next : Request → Response × Bool)
    (r : Request) : Response × Bool :=
  if allow then next r
  else (httpError "rate limit exceeded" 429, false)

/-! ## Token-auth middleware (`TokenAuthMiddleware`, main.go lines 143–182) -/

/-- Go `strings.Split` on a one-character separator, over the character
list: splits at every occurrence of `sep`, keeping empty parts, and yields
at least one part. -/
def goSplitChars (sep : Char) : List Char → List (List Char)
  | [] => [[]]
  | c :: rest =>
    match goSplitChars sep rest with
    | [] => [[]]
    | h :: t => if c = sep then [] :: h :: t else (c :: h) :: t

/-- Go `strings.Split(s, sep)` for a one-character separator. -/
def goSplit (sep : Char) (s : String) : List String :=
  (goSplitChars sep s.data).map String.mk

/-- A claims map as produced by token verification (`token.PrivateClaims()`):
claim name to opaque value. -/
def ClaimsMap : Type := List (String × String)

/-- The JWK set fetched from `AWS_TOKEN_SIGNING_KEY`; its contents are opaque
to the middleware, which only hands it to the JWT parser. -/
structure KeySet where
  keys : List String := []

/-- The parsed JWT as the middleware observes it: Go's
`token.PrivateClaims()` returns a map that the code guards against being
`nil`, so the claims are an `Option`. -/
structure Token where
  privateClaims : Option ClaimsMap

/-- The outcome of running `TokenAuthMiddleware` on one request: the response,
whether the JWK fetch was attempted, and whether the downstream handler ran. -/
structure AuthMWResult where
  response : Response
  keyFetchAttempted : Bool
  handlerInvoked : Bool

/-- `TokenAuthMiddleware`: guards `/db/` routes.  `fetchKeys` is the outcome
`jwk.Fetch` would produce, `parseJwt` the outcome of
`jwt.Parse([]byte(tok), jwt.WithKeySet(keySet))`, `next` the downstream
handler reading the claims attached to the request context, and `authHeader`
the `Authorization` header (Go's `Header.Get` yields `""` when absent). -/
def TokenAuthMiddleware (fetchKeys : Except Unit KeySet)
    (parseJwt : String → KeySet → Except Unit Token)
    (next : ClaimsMap → Response) (authHeader : String) : AuthMWResult :=
  if authHeader = "" then
    ⟨httpError "Authorization header missing" 401, false, false⟩
  else
    let splitAuthHeader := goSplit ' ' authHeader
    if splitAuthHeader.length ≠ 2 ∨ splitAuthHeader.getD 0 "" ≠ "Bearer" then
      ⟨httpError "Invalid authorization header" 400, false, false⟩
    else
      match fetchKeys with
      | .error _ => ⟨httpError "Error fetching keys" 500, true, false⟩
      | .ok keySet =>
        match parseJwt (splitAuthHeader.getD 1 "") keySet with
        | .error _ => ⟨httpError "Error parsing token" 400, true, false⟩
        | .ok token =>
          match token.privateClaims with
          | none => ⟨httpError "Invalid token claims" 401, true, false⟩
          | some claims => ⟨next claims, true, true⟩

/-! ## Token-bucket rate limiter (`rate.NewLimiter(rate.Limit(15), 5)`) -/

/-- Modelled from the spec: the process-wide token bucket behind
`rateLimitMiddleware` lives in the external library `golang.org/x/time/rate`
and is not part of this repository's sources.  Per §4.1 it is a time-based
token bucket with sustained rate `rateLimit` tokens per second and burst
capacity `burst`; `tokens` is the current fill and `lastTime` the time of the
last update, both in seconds. -/
structure Limiter where
  rateLimit : ℚ
  burst : ℚ
  tokens : ℚ
  lastTime : ℚ
deriving DecidableEq, Repr

/-- A fresh limiter as `rate.NewLimiter` yields one: a full bucket. -/
def mkLimiter (r b : ℚ) : Limiter :=
  { rateLimit := r, burst := b, tokens := b, lastTime := 0 }

/-- The bucket fill after advancing the limiter to time `t`: refill at the
sustained rate, capped at the burst capacity. -/
def Limiter.advance (l : Limiter) (t : ℚ) : ℚ :=
  min l.burst (l.tokens + (t - l.lastTime) * l.rateLimit)

/-- `limiter.Allow()` at time `t`: admit iff at least one token is available,
consuming it. -/
def Limiter.allowAt (l : Limiter) (t : ℚ) : Bool × Limiter :=
  let tok := l.advance t
  if 1 ≤ tok then
    (true, { l with tokens := tok - 1, lastTime := t })
  else
    (false, { l with tokens := tok, lastTime := t })

/-- Run a sequence of requests, given by their arrival times, through the
shared limiter, collecting each admission decision. -/
def runAllows (l : Limiter) : List ℚ → List Bool × Limiter
  | [] => ([], l)
  | t :: ts =>
    let (b, l') := l.allowAt t
    let (bs, l'') := runAllows l' ts
    (b :: bs, l'')

/-! ## base64url decoding (Go `base64.RawURLEncoding.DecodeString`) -/

/-- The value of one character of the base64url alphabet, or `none` for a
character outside it. -/
def b64urlCharVal (c : Char) : Option Nat :=
  if 'A' ≤ c ∧ c ≤ 'Z' then some (c.toNat - 65)
  else if 'a' ≤ c ∧ c ≤ 'z' then some (c.toNat - 97 + 26)
  else if '0' ≤ c ∧ c ≤ '9' then some (c.toNat - 48 + 52)
  else if c = '-' then some 62
  else if c = '_' then some 63
  else none

/-- Decode an unpadded base64url character stream to bytes: full quanta of
four characters yield three bytes; a final quantum of two or three characters
yields one or two bytes; a final quantum of one character, or any character
outside the alphabet, is corrupt input. -/
def b64urlDecodeChars : List Char → Option (List Nat)
  | [] => some []
  | [_] => none
  | [a, b] => do
    let va ← b64urlCharVal a
    let vb ← b64urlCharVal b
    pure [(va * 4 + vb / 16) % 256]
  | [a, b, c] => do
    let va ← b64urlCharVal a
    let vb ← b64urlCharVal b
    let vc ← b64urlCharVal c
    let n := va * 2 ^ 12 + vb * 2 ^ 6 + vc
    pure [n / 2 ^ 10 % 256, n / 4 % 256]
  | a :: b :: c :: d :: rest => do
    let va ← b64urlCharVal a
    let vb ← b64urlCharVal b
    let vc ← b64urlCharVal c
    let vd ← b64urlCharVal d
    let n := va * 2 ^ 18 + vb * 2 ^ 12 + vc * 2 ^ 6 + vd
    let tail ← b64urlDecodeChars rest
    pure ([n / 2 ^ 16, n / 2 ^ 8 % 256, n % 256] ++ tail)

/-- Go `base64.RawURLEncoding.DecodeString`. -/
def b64urlDecode (s : String) : Option (List Nat) :=
  b64urlDecodeChars s.data

/-! ## Identity-lifecycle request/response data (`src/main.go` Cognito part) -/

/-- The `User` request body of `signUp` and `SignIn`. -/
structure User where
  username : String
  password : String
  firstName : String
  lastName : String
deriving DecidableEq, Repr

/-- The `ConfirmSignupRequest` body (also used by `RequestVerificationCode`). -/
structure ConfirmSignupRequest where
  email : String
  confirmationCode : String
deriving DecidableEq, Repr

/-- The anonymous `ForgotPassword` request body. -/
structure EmailRequest where
  email : String
deriving DecidableEq, Repr

/-- The anonymous `ConfirmForgottenPassword` request body. -/
structure ConfirmForgotRequest where
  email : String
  confirmationCode : String
  password : String
deriving DecidableEq, Repr

/-- A decoded JSON value, as far as `SignIn`'s `claims["sub"].(string)`
type assertion distinguishes them: a string succeeds, anything else fails. -/
inductive JsonValue where
  | str (s : String)
  | num (n : Int)
  | bool (b : Bool)
  | null
deriving DecidableEq, Repr

/-- The result of `json.Unmarshal` into `map[string]interface` in `SignIn`. -/
def JsonObject : Type := List (String × JsonValue)

/-- The `AuthenticationResult` of a successful Cognito `AdminInitiateAuth`.
`idToken` and `refreshToken` are plain strings because `SignIn` dereferences
both pointers unconditionally (main.go lines 352 and 380). -/
structure AuthenticationResult where
  accessToken : Option String
  expiresIn : Int
  tokenType : Option String
  idToken : String
  refreshToken : String
deriving DecidableEq, Repr

/-- The `SignInResponse` JSON body returned by `SignIn` and `RefreshToken`. -/
structure SignInResponse where
  accessToken : Option String
  expiresIn : Int
  tokenType : Option String
  idToken : Option String
deriving DecidableEq, Repr

/-- JSON string escaping, modelling Go's encoder on the token strings at hand
(quote and backslash escaped; control/HTML escaping immaterial here). -/
def jsonEscape (s : String) : String :=
  s.foldl (fun acc c =>
    acc ++ (if c = '"' then "\\\"" else if c = '\\' then "\\\\" else String.singleton c)) ""

/-- Marshal an optional string field as Go's `encoding/json` does a
`nil`-able string pointer: `null` or a quoted string. -/
def jsonStringOpt : Option String → String
  | none => "null"
  | some s => "\"" ++ jsonEscape s ++ "\""

/-- `json.Marshal` of a `SignInResponse`, in the struct's field order.  Total:
marshalling this struct cannot fail in Go, so the handlers' dead
`Failed to marshal response` branches are not modelled. -/
def SignInResponse.marshal (resp : SignInResponse) : String :=
  "\x7b\"accessToken\":" ++ jsonStringOpt resp.accessToken ++
  ",\"expiresIn\":" ++ toString resp.expiresIn ++
  ",\"tokenType\":" ++ jsonStringOpt resp.tokenType ++
  ",\"idToken\":" ++ jsonStringOpt resp.idToken ++ "\x7d"

/-- The `SignInResponse` both `SignIn` and `RefreshToken` build from a
Cognito `AuthenticationResult` (main.go lines 396–401 and 453–458). -/
def mkSignInResponse (obj : AuthenticationResult) : SignInResponse :=
  { accessToken := obj.accessToken, expiresIn := obj.expiresIn,
    tokenType := obj.tokenType, idToken := some obj.idToken }

/-- The `refreshToken` cookie `SignIn` sets on success (main.go 378–385). -/
def signInRefreshCookie (v : String) : Cookie :=
  { name := "refreshToken", value := v, path := "/", httpOnly := true,
    secure := true, sameSite := .noneMode }

/-- The `userSub` cookie `SignIn` sets on success (main.go 387–394). -/
def signInSubCookie (sub : String) : Cookie :=
  { name := "userSub", value := sub, path := "/", httpOnly := true,
    secure := true, sameSite := .noneMode }

/-- The expired cookie `SignOut` overwrites each session cookie with
(main.go 489–509): empty value, `Expires: time.Unix(0,0)`, `MaxAge: -1`. -/
def clearedCookie (n : String) : Cookie :=
  { name := n, value := "", path := "/", httpOnly := true, secure := true,
    sameSite := .noneMode, expires := some 0, maxAge := -1 }

/-! ## Identity-lifecycle handlers

Each handler takes the outcomes of its external steps as parameters: the JSON
body decode (`Option` of the request struct), the `auth.CalculateSecretHash`
call (`internal/auth`, outside `src/`), and the Cognito call.  The event list
records the provider calls actually reached. -/

/-- `signUp` (main.go 206–234). -/
def signUp (method : String) (body : Option User)
    (provider : Except String Unit) : Response × List Event :=
  if method ≠ "POST" then (httpError "Invalid request method" 405, [])
  else
    match body with
    | none => (httpError "Invalid request body" 400, [])
    | some _user =>
      match provider with
      | .error e => (httpError ("Failed to sign up user: " ++ e) 500, [.providerCall])
      | .ok _ => ({ status := 201 }, [.providerCall])

/-- `ConfirmSignup` (main.go 241–274). -/
def ConfirmSignup (body : Option ConfirmSignupRequest) (secretHash : Except Unit String)
    (provider : Except Unit Unit) : Response × List Event :=
  match body with
  | none => (httpError "Invalid request body" 400, [])
  | some _req =>
    match secretHash with
    | .error _ => (httpError "Failed to calculate secret hash" 500, [])
    | .ok _ =>
      match provider with
      | .error _ => (httpError "Failed to confirm signup" 500, [.providerCall])
      | .ok _ => ({ status := 200 }, [.providerCall])

/-- `RequestVerificationCode` (main.go 276–306). -/
def RequestVerificationCode (body : Option ConfirmSignupRequest)
    (secretHash : Except Unit String) (provider : Except Unit Unit) :
    Response × List Event :=
  match body with
  | none => (httpError "Invalid request body" 400, [])
  | some _req =>
    match secretHash with
    | .error _ => (httpError "Failed to calculate secret hash" 500, [])
    | .ok _ =>
      match provider with
      | .error _ => (httpError "Failed to resend confirmation code" 500, [.providerCall])
      | .ok _ => ({ status := 200 }, [.providerCall])

/-- `SignIn` (main.go 315–411): decode the body, compute the secret hash,
run `AdminInitiateAuth` (`ADMIN_USER_PASSWORD_AUTH`), split the returned ID
token on dots, base64url-decode its middle segment, JSON-parse the payload,
extract the string `sub` claim, set the two session cookies and answer 200
with the marshalled `SignInResponse`. -/
def SignIn (body : Option User) (secretHash : Except Unit String)
    (adminInitiateAuth : Except String AuthenticationResult)
    (jsonUnmarshal : List Nat → Option JsonObject) : Response × List Event :=
  match body with
  | none => (httpError "Invalid request body" 400, [])
  | some _user =>
    match secretHash with
    | .error _ => (httpError "Failed to calculate secret hash" 500, [])
    | .ok _ =>
      match adminInitiateAuth with
      | .error e => (httpError ("Failed to authenticate user: " ++ e) 500, [.providerCall])
      | .ok obj =>
        let parts := goSplit '.' obj.idToken
        if parts.length ≠ 3 then
          (httpError "Invalid ID token" 500, [.providerCall])
        else
          match b64urlDecode (parts.getD 1 "") with
          | none => (httpError "Failed to decode ID token" 500, [.providerCall])
          | some payload =>
            match jsonUnmarshal payload with
            | none => (httpError "Failed to parse ID token" 500, [.providerCall])
            | some claims =>
              match (claims.find? (fun p => p.1 = "sub")).map Prod.snd with
              | some (.str sub) =>
                ({ status := 200,
                   cookies := [signInRefreshCookie obj.refreshToken, signInSubCookie sub],
                   body := (mkSignInResponse obj).marshal }, [.providerCall])
              | _ => (httpError "Failed to extract 'sub' from ID token" 500, [.providerCall])

/-- The `sub`-claim extraction embedded in `SignIn` (main.go 352–377), as a
standalone function: `none` exactly when the ID token is malformed — not
three dot-separated segments, middle segment not base64url, payload not
JSON-decodable, or no string-valued `sub` claim. -/
def extractSub (jsonUnmarshal : List Nat → Option JsonObject)
    (idToken : String) : Option String :=
  let parts := goSplit '.' idToken
  if parts.length ≠ 3 then none
  else
    match b64urlDecode (parts.getD 1 "") with
    | none => none
    | some payload =>
      match jsonUnmarshal payload with
      | none => none
      | some claims =>
        match (claims.find? (fun p => p.1 = "sub")).map Prod.snd with
        | some (.str sub) => some sub
        | _ => none

/-- `RefreshToken` (main.go 413–468): read both cookies (failing before any
provider call when either is absent), compute the secret hash on the subject,
run `AdminInitiateAuth` (`REFRESH_TOKEN_AUTH`), answer 200 with the marshalled
`SignInResponse`; no cookie is (re)set. -/
def RefreshToken (refreshCookie userSubCookie : Option String)
    (secretHash : Except Unit String)
    (adminInitiateAuth : Except String AuthenticationResult) :
    Response × List Event :=
  match refreshCookie with
  | none => (httpError "Failed to retrieve refresh token" 500, [])
  | some _rt =>
    match userSubCookie with
    | none => (httpError "Failed to retrieve user email" 500, [])
    | some _sub =>
      match secretHash with
      | .error _ => (httpError "Failed to calculate secret hash" 500, [])
      | .ok _ =>
        match adminInitiateAuth with
        | .error e => (httpError ("Failed to refresh token: " ++ e) 500, [.providerCall])
        | .ok obj =>
          ({ status := 200, body := (mkSignInResponse obj).marshal }, [.providerCall])

/-- `SignOut` (main.go 470–512): read the `userSub` cookie, run
`AdminUserGlobalSignOut`, overwrite both session cookies with expired ones. -/
def SignOut (userSubCookie : Option String)
    (globalSignOut : Except Unit Unit) : Response × List Event :=
  match userSubCookie with
  | none => (httpError "Failed to retrieve user email" 500, [])
  | some _sub =>
    match globalSignOut with
    | .error _ => (httpError "Failed to sign out user" 500, [.providerCall])
    | .ok _ =>
      ({ status := 200,
         cookies := [clearedCookie "refreshToken", clearedCookie "userSub"] },
       [.providerCall])

/-- `ForgotPassword` (main.go 514–548). -/
def ForgotPassword (body : Option EmailRequest) (secretHash : Except Unit String)
    (provider : Except String Unit) : Response × List Event :=
  match body with
  | none => (httpError "Invalid request body" 400, [])
  | some _req =>
    match secretHash with
    | .error _ => (httpError "Failed to calculate secret hash" 500, [])
    | .ok _ =>
      match provider with
      | .error e => (httpError ("Failed to request password reset: " ++ e) 500, [.providerCall])
      | .ok _ => ({ status := 200 }, [.providerCall])

/-- `ConfirmForgottenPassword` (main.go 550–586). -/
def ConfirmForgottenPassword (body : Option ConfirmForgotRequest)
    (secretHash : Except Unit String) (provider : Except Unit Unit) :
    Response × List Event :=
  match body with
  | none => (httpError "Invalid request body" 400, [])
  | some _req =>
    match secretHash with
    | .error _ => (httpError "Failed to calculate secret hash" 500, [])
    | .ok _ =>
      match provider with
      | .error _ => (httpError "Failed to confirm forgotten password" 500, [.providerCall])
      | .ok _ => ({ status := 200 }, [.providerCall])

/-! ## Cookie-pair observations (for the session-cookie invariant) -/

/-- A cookie written as an immediate clear: `MaxAge = -1` and epoch expiry. -/
def isClearedCookie (c : Cookie) : Bool :=
  c.maxAge == -1 && c.expires == some 0

/-- The response sets (not clears) a cookie named `n`. -/
def setsCookie (resp : Response) (n : String) : Bool :=
  resp.cookies.any (fun c => c.name == n && !(isClearedCookie c))

/-- The response clears a cookie named `n`. -/
def clearsCookie (resp : Response) (n : String) : Bool :=
  resp.cookies.any (fun c => c.name == n && isClearedCookie c)

/-- The session-cookie pair is treated atomically by a response: the
`refreshToken` cookie is set iff the `userSub` cookie is, and cleared iff the
`userSub` cookie is. -/
def cookiePairOK (resp : Response) : Bool :=
  (setsCookie resp "refreshToken" == setsCookie resp "userSub") &&
  (clearsCookie resp "refreshToken" == clearsCookie resp "userSub")

/-! ## Helper lemmas -/

theorem headerLookup_append (h1 h2 : List (String × String)) (k : String) :
    headerLookup (h1 ++ h2) k =
      ((h1.find? (fun p => p.1 = k)).map Prod.snd).orElse
        (fun _ => headerLookup h2 k) := by
  induction h1 with
  | nil => simp [headerLookup]
  | cons a t ih =>
    by_cases h : a.1 = k
    · simp [headerLookup, List.find?_cons, h]
    · simpa [headerLookup, List.find?_cons, h] using ih

/-! ## C3: requests without an Authorization header -/

/-- C3: every request to a protected route carrying no `Authorization` header
(`Header.Get` yields `""`) is answered with exactly 401
`Authorization header missing`, with no key fetch attempted and the
downstream handler never invoked — whatever the key-set fetch, the JWT
parser and the downstream handler would have done. -/
theorem tokenAuth_missing_header_401 (fetchKeys : Except Unit KeySet)
    (parseJwt : String → KeySet → Except Unit Token)
    (next : ClaimsMap → Response) :
    TokenAuthMiddleware fetchKeys parseJwt next "" =
      ⟨httpError "Authorization header missing" 401, false, false⟩ := rfl

/-! ## C4: malformed Authorization headers -/

/-- C4: every request to a protected route whose `Authorization` header is
present but does not split on single spaces into exactly two parts with the
first equal to the case-sensitive `"Bearer"` is answered with exactly 400
`Invalid authorization header`, with no key fetch attempted and no downstream
handler invocation. -/
theorem tokenAuth_malformed_header_400 (fetchKeys : Except Unit KeySet)
    (parseJwt : String → KeySet → Except Unit Token)
    (next : ClaimsMap → Response) (authHeader : String)
    (hne : authHeader ≠ "")
    (hshape : ¬((goSplit ' ' authHeader).length = 2 ∧
      (goSplit ' ' authHeader).getD 0 "" = "Bearer")) :
    TokenAuthMiddleware fetchKeys parseJwt next authHeader =
      ⟨httpError "Invalid authorization header" 400, false, false⟩ := by
  have hcond : (goSplit ' ' authHeader).length ≠ 2 ∨
      (goSplit ' ' authHeader).getD 0 "" ≠ "Bearer" := not_and_or.mp hshape
  simp only [TokenAuthMiddleware, if_neg hne]
  rw [if_pos hcond]

/-- Witness for C4: the header `"Basic abc"` (wrong scheme) is rejected with
400 and neither the key fetch nor the handler runs. -/
theorem tokenAuth_malformed_header_400_witness :
    TokenAuthMiddleware (.ok ⟨[]⟩) (fun _ _ => .error ())
        (fun _ => { status := 200 }) "Basic abc" =
      ⟨httpError "Invalid authorization header" 400, false, false⟩ :=
  tokenAuth_malformed_header_400 _ _ _ _ (by decide) (by decide)

/-! ## C1: token fails verification (corrected: 400, not 401) -/

/-- C1 counterexample: a request with the well-formed header
`"Bearer sometoken"`, whose key-set fetch succeeds and whose token fails
verification, is answered with status 400 — not 401 as the claim states. -/
theorem tokenAuth_verify_fail_counterexample :
    (TokenAuthMiddleware (.ok ⟨[]⟩) (fun _ _ => .error ())
        (fun _ => { status := 200 }) "Bearer sometoken").response.status = 400 ∧
    (TokenAuthMiddleware (.ok ⟨[]⟩) (fun _ _ => .error ())
        (fun _ => { status := 200 }) "Bearer sometoken").response.status ≠ 401 := by
  decide

/-- C1 (amended): for every request to a protected route whose
`Authorization` header has the well-formed `Bearer <token>` shape and whose
key-set fetch succeeds, if the token fails verification (`jwt.Parse` errors),
the middleware responds with exactly 400 `Error parsing token` after
attempting the key fetch, and the downstream handler is not invoked. -/
theorem tokenAuth_verify_fail_400 (keySet : KeySet)
    (fetchKeys : Except Unit KeySet)
    (parseJwt : String → KeySet → Except Unit Token)
    (next : ClaimsMap → Response) (authHeader : String)
    (hshape : (goSplit ' ' authHeader).length = 2 ∧
      (goSplit ' ' authHeader).getD 0 "" = "Bearer")
    (hfetch : fetchKeys = .ok keySet)
    (hparse : parseJwt ((goSplit ' ' authHeader).getD 1 "") keySet = .error ()) :
    TokenAuthMiddleware fetchKeys parseJwt next authHeader =
      ⟨httpError "Error parsing token" 400, true, false⟩ := by
  have hne : authHeader ≠ "" := by
    intro h
    rw [h] at hshape
    exact absurd hshape.1 (by decide)
  have hcond : ¬((goSplit ' ' authHeader).length ≠ 2 ∨
      (goSplit ' ' authHeader).getD 0 "" ≠ "Bearer") := by
    push_neg
    exact hshape
  simp only [TokenAuthMiddleware, if_neg hne]
  rw [if_neg hcond, hfetch]
  simp only [hparse]

/-- Witness for C1's amended theorem: a concrete well-formed header whose
token the parser rejects yields exactly the 400 response. -/
theorem tokenAuth_verify_fail_400_witness :
    TokenAuthMiddleware (.ok ⟨[]⟩) (fun _ _ => .error ())
        (fun _ => { status := 200 }) "Bearer sometoken" =
      ⟨httpError "Error parsing token" 400, true, false⟩ :=
  tokenAuth_verify_fail_400 ⟨[]⟩ _ _ _ _ (by decide) rfl rfl

/-! ## C7: CORS origin allowlist -/

/-- C7: a request whose `Origin` header is outside the allow-set receives a
response with no `Access-Control-Allow-Origin` header (given that the
downstream handler emits none, as none in this program does); a request whose
`Origin` is allowlisted receives exactly that origin echoed back. -/
theorem cors_origin_allowlist (next : Request → Response) (r : Request) :
    (headerGet r "Origin" ∉ allowedOrigins →
      headerLookup (next r).headers "Access-Control-Allow-Origin" = none →
      headerLookup (corsMiddleware next r).1.headers
        "Access-Control-Allow-Origin" = none) ∧
    (headerGet r "Origin" ∈ allowedOrigins →
      headerLookup (corsMiddleware next r).1.headers
        "Access-Control-Allow-Origin" = some (headerGet r "Origin")) := by
  constructor
  · intro hmem hnext
    by_cases hopt : r.method = "OPTIONS"
    · simp only [corsMiddleware]
      rw [if_pos hopt]
      simp only [corsHeaders, if_neg hmem, List.nil_append]
      rfl
    · simp only [corsMiddleware]
      rw [if_neg hopt]
      simp only [corsHeaders, if_neg hmem, List.nil_append]
      rw [headerLookup_append, hnext]
      rfl
  · intro hmem
    by_cases hopt : r.method = "OPTIONS"
    · simp only [corsMiddleware]
      rw [if_pos hopt]
      simp only [corsHeaders, if_pos hmem]
      rfl
    · simp only [corsMiddleware]
      rw [if_neg hopt]
      simp only [corsHeaders, if_pos hmem, List.cons_append, List.nil_append]
      rfl

/-- Witness for C7: the unlisted origin `https://unlisted.example` gets no
`Access-Control-Allow-Origin` header; the allowlisted
`https://myhealthtrackers.com` is echoed back exactly. -/
theorem cors_origin_allowlist_witness :
    headerLookup ((corsMiddleware (fun _ => { status := 200 })
        { method := "GET", headers := [("Origin", "https://unlisted.example")] }).1.headers)
      "Access-Control-Allow-Origin" = none ∧
    headerLookup ((corsMiddleware (fun _ => { status := 200 })
        { method := "GET", headers := [("Origin", "https://myhealthtrackers.com")] }).1.headers)
      "Access-Control-Allow-Origin" = some "https://myhealthtrackers.com" := by
  constructor
  · exact (cors_origin_allowlist (fun _ => { status := 200 })
      { method := "GET", headers := [("Origin", "https://unlisted.example")] }).1
      (by decide) (by decide)
  · exact (cors_origin_allowlist (fun _ => { status := 200 })
      { method := "GET", headers := [("Origin", "https://myhealthtrackers.com")] }).2
      (by decide)

/-! ## C8: pipeline-wide CORS headers (corrected: not on rate-limited rejections) -/

/-- C8 counterexample: the rate limiter wraps the CORS middleware
(`rateLimitMiddleware(corsMux)` in `main`), so a rate-limited request — even
one from an allowlisted origin — is rejected with 429 carrying none of the
CORS headers, contradicting the claim that every response does. -/
theorem pipeline_rate_limited_no_cors_counterexample :
    (rateLimitMiddleware false (corsMiddleware (fun _ => { status := 200 }))
        { method := "GET",
          headers := [("Origin", "https://symptom-log.netlify.app")] }).1.status = 429 ∧
    headerLookup (rateLimitMiddleware false (corsMiddleware (fun _ => { status := 200 }))
        { method := "GET",
          headers := [("Origin", "https://symptom-log.netlify.app")] }).1.headers
      "Access-Control-Allow-Credentials" = none ∧
    headerLookup (rateLimitMiddleware false (corsMiddleware (fun _ => { status := 200 }))
        { method := "GET",
          headers := [("Origin", "https://symptom-log.netlify.app")] }).1.headers
      "Access-Control-Allow-Origin" = none := by
  decide

/-- The headers of a response admitted by the rate limiter: the CORS headers
for the request's origin, followed by whatever the downstream handler set. -/
theorem pipeline_headers_eq (next : Request → Response) (r : Request) :
    (rateLimitMiddleware true (corsMiddleware next) r).1.headers =
      corsHeaders (headerGet r "Origin") ++
        (if r.method = "OPTIONS" then [] else (next r).headers) := by
  by_cases hopt : r.method = "OPTIONS" <;>
    simp [rateLimitMiddleware, corsMiddleware, hopt]

/-- C8 (amended): every response admitted by the rate limiter carries the
CORS headers of §4.2 (credentials, methods, headers; the origin echo per C7),
and every admitted `OPTIONS` request on any path is answered 200 with an
empty body without reaching downstream handlers; but a rate-limited request
is rejected 429 before the CORS middleware runs, so that response carries no
CORS headers. -/
theorem pipeline_cors_headers (next : Request → Response) (r : Request) :
    (headerLookup (rateLimitMiddleware true (corsMiddleware next) r).1.headers
        "Access-Control-Allow-Credentials" = some "true" ∧
      headerLookup (rateLimitMiddleware true (corsMiddleware next) r).1.headers
        "Access-Control-Allow-Methods" = some "GET, POST " ∧
      headerLookup (rateLimitMiddleware true (corsMiddleware next) r).1.headers
        "Access-Control-Allow-Headers" = some "Content-Type, Authorization") ∧
    (rateLimitMiddleware true (corsMiddleware next) { r with method := "OPTIONS" } =
      ({ status := 200,
         headers := corsHeaders (headerGet { r with method := "OPTIONS" } "Origin"),
         body := "" }, false)) ∧
    (rateLimitMiddleware false (corsMiddleware next) r =
      (httpError "rate limit exceeded" 429, false)) := by
  refine ⟨⟨?_, ?_, ?_⟩, rfl, rfl⟩
  all_goals
    rw [pipeline_headers_eq]
    simp only [corsHeaders]
    by_cases hmem : headerGet r "Origin" ∈ allowedOrigins
    · rw [if_pos hmem]
      rfl
    · rw [if_neg hmem]
      rfl

/-! ## C2: SignIn with rejected credentials (corrected: 500, not 401) -/

/-- C2 counterexample: a well-formed SignIn whose credentials Cognito
rejects is answered with status 500, not 401 as the claim states. -/
theorem signIn_bad_credentials_counterexample :
    (SignIn (some ⟨"alice", "wrong-password", "A", "B"⟩) (.ok "hash")
        (.error "NotAuthorizedException: Incorrect username or password.")
        (fun _ => none)).1.status = 500 ∧
    (SignIn (some ⟨"alice", "wrong-password", "A", "B"⟩) (.ok "hash")
        (.error "NotAuthorizedException: Incorrect username or password.")
        (fun _ => none)).1.status ≠ 401 := by
  decide

/-- C2 (amended): every SignIn request with a well-formed body whose
credentials the identity provider rejects fails with status 500, the
provider's error text appended to `Failed to authenticate user: `, after one
provider call. -/
theorem signIn_bad_credentials_500 (user : User) (hash : String) (e : String)
    (junm : List Nat → Option JsonObject) :
    SignIn (some user) (.ok hash) (.error e) junm =
      (httpError ("Failed to authenticate user: " ++ e) 500, [.providerCall]) := rfl

/-! ## SignIn characterization by the extracted `sub` claim -/

/-- When the ID token yields no string `sub` claim, `SignIn` answers 500 and
sets no cookie (whichever of the four decode steps failed). -/
theorem signIn_extractSub_none (user : User) (hash : String)
    (obj : AuthenticationResult) (junm : List Nat → Option JsonObject)
    (hn : extractSub junm obj.idToken = none) :
    (SignIn (some user) (.ok hash) (.ok obj) junm).1.status = 500 ∧
    (SignIn (some user) (.ok hash) (.ok obj) junm).1.cookies = [] := by
  simp only [SignIn]
  by_cases h3 : (goSplit '.' obj.idToken).length = 3
  · rw [if_neg (not_not_intro h3)]
    rcases hd : b64urlDecode ((goSplit '.' obj.idToken).getD 1 "") with _ | payload
    · simp only [hd]
      exact ⟨rfl, rfl⟩
    · simp only [hd]
      rcases hj : junm payload with _ | claims
      · simp only [hj]
        exact ⟨rfl, rfl⟩
      · simp only [hj]
        rcases hv : (claims.find? (fun p => p.1 = "sub")).map Prod.snd with _ | v
        · simp only [hv]
          exact ⟨rfl, rfl⟩
        · cases v with
          | str s =>
            exfalso
            simp only [extractSub] at hn
            rw [if_neg (not_not_intro h3)] at hn
            simp only [hd, hj, hv] at hn
            exact Option.noConfusion hn
          | num n =>
            simp only [hv]
            exact ⟨rfl, rfl⟩
          | bool b =>
            simp only [hv]
            exact ⟨rfl, rfl⟩
          | null =>
            simp only [hv]
            exact ⟨rfl, rfl⟩
  · rw [if_pos h3]
    exact ⟨rfl, rfl⟩

/-- When the ID token yields the string `sub` claim, `SignIn` succeeds: 200,
both session cookies set, body the marshalled `SignInResponse`. -/
theorem signIn_extractSub_some (user : User) (hash : String)
    (obj : AuthenticationResult) (junm : List Nat → Option JsonObject) (sub : String)
    (hs : extractSub junm obj.idToken = some sub) :
    SignIn (some user) (.ok hash) (.ok obj) junm =
      ({ status := 200,
         cookies := [signInRefreshCookie obj.refreshToken, signInSubCookie sub],
         body := (mkSignInResponse obj).marshal }, [.providerCall]) := by
  simp only [extractSub] at hs
  simp only [SignIn]
  by_cases h3 : (goSplit '.' obj.idToken).length = 3
  · rw [if_neg (not_not_intro h3)] at hs ⊢
    rcases hd : b64urlDecode ((goSplit '.' obj.idToken).getD 1 "") with _ | payload
    · simp only [hd] at hs
      exact Option.noConfusion hs
    · simp only [hd] at hs ⊢
      rcases hj : junm payload with _ | claims
      · simp only [hj] at hs
        exact Option.noConfusion hs
      · simp only [hj] at hs ⊢
        rcases hv : (claims.find? (fun p => p.1 = "sub")).map Prod.snd with _ | v
        · simp only [hv] at hs
          exact Option.noConfusion hs
        · cases v with
          | str s =>
            simp only [hv] at hs ⊢
            cases Option.some.inj hs
            rfl
          | num n =>
            simp only [hv] at hs
            exact Option.noConfusion hs
          | bool b =>
            simp only [hv] at hs
            exact Option.noConfusion hs
          | null =>
            simp only [hv] at hs
            exact Option.noConfusion hs
  · rw [if_pos h3] at hs
    exact Option.noConfusion hs

/-! ## C10: SignIn with a malformed ID token from the provider -/

/-- C10: for every SignIn in which the provider accepts the credentials but
the returned ID token is malformed — not exactly three dot-separated
segments, middle segment failing base64url decoding or JSON parsing, or no
string-valued `sub` claim (`extractSub` yields `none`) — SignIn responds 500
and sets neither the `refreshToken` nor the `userSub` cookie. -/
theorem signIn_malformed_idToken_500 (user : User) (hash : String)
    (obj : AuthenticationResult) (junm : List Nat → Option JsonObject)
    (hmal : extractSub junm obj.idToken = none) :
    (SignIn (some user) (.ok hash) (.ok obj) junm).1.status = 500 ∧
    (SignIn (some user) (.ok hash) (.ok obj) junm).1.cookies = [] :=
  signIn_extractSub_none user hash obj junm hmal

/-- Witness for C10: an ID token with a single segment makes SignIn answer
500 with no cookie, although the provider call succeeded. -/
theorem signIn_malformed_idToken_500_witness :
    extractSub (fun _ => none) "bad-token" = none ∧
    ((SignIn (some ⟨"alice", "pw", "A", "B"⟩) (.ok "hash")
        (.ok ⟨some "acc", 3600, some "Bearer", "bad-token", "refresh"⟩)
        (fun _ => none)).1.status = 500 ∧
      (SignIn (some ⟨"alice", "pw", "A", "B"⟩) (.ok "hash")
        (.ok ⟨some "acc", 3600, some "Bearer", "bad-token", "refresh"⟩)
        (fun _ => none)).1.cookies = []) :=
  ⟨rfl, signIn_malformed_idToken_500 ⟨"alice", "pw", "A", "B"⟩ "hash"
    ⟨some "acc", 3600, some "Bearer", "bad-token", "refresh"⟩ (fun _ => none) rfl⟩

/-! ## C6: RefreshToken cookie preconditions and response shape -/

/-- C6: RefreshToken with the `refreshToken` cookie absent (resp. the
`userSub` cookie absent) fails 500 with no provider call (empty event list);
on success it answers 200 with the marshalled `SignInResponse` — the same
body SignIn produces for the same authentication result — and emits no
`Set-Cookie` (the response's cookie list is empty). -/
theorem refreshToken_cookies_shape (subCk : Option String) (rt sub hash : String)
    (hashr : Except Unit String) (prov : Except String AuthenticationResult)
    (obj : AuthenticationResult) (user : User)
    (junm : List Nat → Option JsonObject) (sub2 : String) :
    (RefreshToken none subCk hashr prov =
      (httpError "Failed to retrieve refresh token" 500, [])) ∧
    (RefreshToken (some rt) none hashr prov =
      (httpError "Failed to retrieve user email" 500, [])) ∧
    (RefreshToken (some rt) (some sub) (.ok hash) (.ok obj) =
      ({ status := 200, body := (mkSignInResponse obj).marshal }, [.providerCall])) ∧
    (extractSub junm obj.idToken = some sub2 →
      (SignIn (some user) (.ok hash) (.ok obj) junm).1.body =
        (RefreshToken (some rt) (some sub) (.ok hash) (.ok obj)).1.body) := by
  refine ⟨rfl, rfl, rfl, fun hsub => ?_⟩
  rw [signIn_extractSub_some user hash obj junm sub2 hsub]
  rfl

/-- Witness for C6: concrete missing-cookie and success runs. -/
theorem refreshToken_cookies_shape_witness :
    extractSub (fun _ => some [("sub", JsonValue.str "w1")]) "x.AA.y" = some "w1" ∧
    (RefreshToken none (some "w1") (.ok "hash") (.error "e") =
      (httpError "Failed to retrieve refresh token" 500, [])) ∧
    (SignIn (some ⟨"u", "p", "f", "l"⟩) (.ok "hash")
        (.ok ⟨some "acc", 3600, some "Bearer", "x.AA.y", "refresh"⟩)
        (fun _ => some [("sub", JsonValue.str "w1")])).1.body =
      (RefreshToken (some "refresh") (some "w1") (.ok "hash")
        (.ok ⟨some "acc", 3600, some "Bearer", "x.AA.y", "refresh"⟩)).1.body := by
  have h := refreshToken_cookies_shape (some "w1") "refresh" "w1" "hash" (.ok "hash")
      (.error "e") ⟨some "acc", 3600, some "Bearer", "x.AA.y", "refresh"⟩
      ⟨"u", "p", "f", "l"⟩ (fun _ => some [("sub", JsonValue.str "w1")]) "w1"
  exact ⟨rfl, h.1, h.2.2.2 rfl⟩

/-! ## C5: the session-cookie pair is set and cleared atomically -/

theorem signUp_cookiePair (m : String) (b : Option User) (p : Except String Unit) :
    cookiePairOK (signUp m b p).1 = true := by
  simp only [signUp]
  repeat' split
  all_goals rfl

theorem confirmSignup_cookiePair (b : Option ConfirmSignupRequest)
    (h : Except Unit String) (p : Except Unit Unit) :
    cookiePairOK (ConfirmSignup b h p).1 = true := by
  simp only [ConfirmSignup]
  repeat' split
  all_goals rfl

theorem requestVerificationCode_cookiePair (b : Option ConfirmSignupRequest)
    (h : Except Unit String) (p : Except Unit Unit) :
    cookiePairOK (RequestVerificationCode b h p).1 = true := by
  simp only [RequestVerificationCode]
  repeat' split
  all_goals rfl

theorem signIn_cookiePair (b : Option User) (h : Except Unit String)
    (p : Except String AuthenticationResult) (junm : List Nat → Option JsonObject) :
    cookiePairOK (SignIn b h p junm).1 = true := by
  simp only [SignIn]
  repeat' split
  all_goals rfl

theorem refreshToken_cookiePair (rc usc : Option String) (h : Except Unit String)
    (p : Except String AuthenticationResult) :
    cookiePairOK (RefreshToken rc usc h p).1 = true := by
  simp only [RefreshToken]
  repeat' split
  all_goals rfl

theorem signOut_cookiePair (usc : Option String) (p : Except Unit Unit) :
    cookiePairOK (SignOut usc p).1 = true := by
  simp only [SignOut]
  repeat' split
  all_goals rfl

theorem forgotPassword_cookiePair (b : Option EmailRequest) (h : Except Unit String)
    (p : Except String Unit) :
    cookiePairOK (ForgotPassword b h p).1 = true := by
  simp only [ForgotPassword]
  repeat' split
  all_goals rfl

theorem confirmForgottenPassword_cookiePair (b : Option ConfirmForgotRequest)
    (h : Except Unit String) (p : Except Unit Unit) :
    cookiePairOK (ConfirmForgottenPassword b h p).1 = true := by
  simp only [ConfirmForgottenPassword]
  repeat' split
  all_goals rfl

/-- C5: across all eight identity-lifecycle operations, whatever the body
decode, secret-hash and provider outcomes, the `refreshToken` cookie is set
iff the `userSub` cookie is set and cleared iff the `userSub` cookie is
cleared (`cookiePairOK`); a successful SignIn sets both (and clears
neither); a successful SignOut overwrites exactly both with the expired
cookie (`MaxAge = -1`, epoch expiry). -/
theorem sessionCookiePair_invariant
    (m : String) (bu : Option User) (p1 : Except String Unit)
    (bc : Option ConfirmSignupRequest) (hc : Except Unit String) (pc : Except Unit Unit)
    (bv : Option ConfirmSignupRequest) (hv : Except Unit String) (pv : Except Unit Unit)
    (bs : Option User) (hsg : Except Unit String) (ps : Except String AuthenticationResult)
    (junm : List Nat → Option JsonObject)
    (rc usc : Option String) (hr : Except Unit String)
    (pr : Except String AuthenticationResult)
    (uso : Option String) (po : Except Unit Unit)
    (be : Option EmailRequest) (hf : Except Unit String) (pf : Except String Unit)
    (bg : Option ConfirmForgotRequest) (hg : Except Unit String) (pg : Except Unit Unit)
    (user : User) (hash : String) (obj : AuthenticationResult) (sub subo : String) :
    cookiePairOK (signUp m bu p1).1 = true ∧
    cookiePairOK (ConfirmSignup bc hc pc).1 = true ∧
    cookiePairOK (RequestVerificationCode bv hv pv).1 = true ∧
    cookiePairOK (SignIn bs hsg ps junm).1 = true ∧
    cookiePairOK (RefreshToken rc usc hr pr).1 = true ∧
    cookiePairOK (SignOut uso po).1 = true ∧
    cookiePairOK (ForgotPassword be hf pf).1 = true ∧
    cookiePairOK (ConfirmForgottenPassword bg hg pg).1 = true ∧
    (extractSub junm obj.idToken = some sub →
      setsCookie (SignIn (some user) (.ok hash) (.ok obj) junm).1 "refreshToken" = true ∧
      setsCookie (SignIn (some user) (.ok hash) (.ok obj) junm).1 "userSub" = true ∧
      clearsCookie (SignIn (some user) (.ok hash) (.ok obj) junm).1 "refreshToken" = false ∧
      clearsCookie (SignIn (some user) (.ok hash) (.ok obj) junm).1 "userSub" = false) ∧
    (SignOut (some subo) (.ok ()) =
      ({ status := 200,
         cookies := [clearedCookie "refreshToken", clearedCookie "userSub"] },
       [.providerCall])) := by
  refine ⟨signUp_cookiePair m bu p1, confirmSignup_cookiePair bc hc pc,
    requestVerificationCode_cookiePair bv hv pv, signIn_cookiePair bs hsg ps junm,
    refreshToken_cookiePair rc usc hr pr, signOut_cookiePair uso po,
    forgotPassword_cookiePair be hf pf, confirmForgottenPassword_cookiePair bg hg pg,
    fun hsub => ?_, rfl⟩
  rw [signIn_extractSub_some user hash obj junm sub hsub]
  exact ⟨rfl, rfl, rfl, rfl⟩

/-- Witness for C5: a concrete successful SignIn sets both cookies, and a
concrete successful SignOut clears both. -/
theorem sessionCookiePair_invariant_witness :
    extractSub (fun _ => some [("sub", JsonValue.str "u1")]) "h.AA.s" = some "u1" ∧
    setsCookie ((SignIn (some ⟨"u", "p", "f", "l"⟩) (.ok "hash")
        (.ok ⟨some "acc", 3600, some "Bearer", "h.AA.s", "refresh"⟩)
        (fun _ => some [("sub", JsonValue.str "u1")])).1) "refreshToken" = true ∧
    setsCookie ((SignIn (some ⟨"u", "p", "f", "l"⟩) (.ok "hash")
        (.ok ⟨some "acc", 3600, some "Bearer", "h.AA.s", "refresh"⟩)
        (fun _ => some [("sub", JsonValue.str "u1")])).1) "userSub" = true ∧
    (SignOut (some "u1") (.ok ()) =
      ({ status := 200,
         cookies := [clearedCookie "refreshToken", clearedCookie "userSub"] },
       [.providerCall])) := by
  have h := sessionCookiePair_invariant "POST" none (.ok ()) none (.ok "h") (.ok ())
      none (.ok "h") (.ok ()) none (.ok "h")
      (.ok ⟨some "acc", 3600, some "Bearer", "h.AA.s", "refresh"⟩)
      (fun _ => some [("sub", JsonValue.str "u1")]) none none (.ok "h") (.error "e")
      none (.ok ()) none (.ok "h") (.ok ()) none (.ok "h") (.ok ())
      ⟨"u", "p", "f", "l"⟩ "hash"
      ⟨some "acc", 3600, some "Bearer", "h.AA.s", "refresh"⟩ "u1" "u1"
  have h9 := h.2.2.2.2.2.2.2.2.1 rfl
  exact ⟨rfl, h9.1, h9.2.1, h.2.2.2.2.2.2.2.2.2⟩

/-! ## C9: the shared token-bucket rate limiter -/

/-- Evaluation of the six-request burst at time 0 on a fresh limiter: the
first five consume the full bucket, the sixth is denied with an empty
bucket left. -/
theorem runAllows_burst :
    runAllows (mkLimiter 15 5) (List.replicate 6 0) =
      ([true, true, true, true, true, false], ⟨15, 5, 0, 0⟩) := by
  have s0 : (mkLimiter 15 5).allowAt 0 = (true, ⟨15, 5, 4, 0⟩) := by
    norm_num [mkLimiter, Limiter.allowAt, Limiter.advance, min_def]
  have s1 : (Limiter.mk 15 5 4 0).allowAt 0 = (true, ⟨15, 5, 3, 0⟩) := by
    norm_num [Limiter.allowAt, Limiter.advance, min_def]
  have s2 : (Limiter.mk 15 5 3 0).allowAt 0 = (true, ⟨15, 5, 2, 0⟩) := by
    norm_num [Limiter.allowAt, Limiter.advance, min_def]
  have s3 : (Limiter.mk 15 5 2 0).allowAt 0 = (true, ⟨15, 5, 1, 0⟩) := by
    norm_num [Limiter.allowAt, Limiter.advance, min_def]
  have s4 : (Limiter.mk 15 5 1 0).allowAt 0 = (true, ⟨15, 5, 0, 0⟩) := by
    norm_num [Limiter.allowAt, Limiter.advance, min_def]
  have s5 : (Limiter.mk 15 5 0 0).allowAt 0 = (false, ⟨15, 5, 0, 0⟩) := by
    norm_num [Limiter.allowAt, Limiter.advance, min_def]
  simp [runAllows, List.replicate, s0, s1, s2, s3, s4, s5]

/-- C9: with the process-wide bucket of `rate.NewLimiter(rate.Limit(15), 5)`
(modelled from the spec, see `Limiter`), a burst of 6 requests at one instant
to a fresh limiter admits exactly the first 5 and rejects the 6th; any
rejected request is answered 429 `rate limit exceeded` with no downstream
work, any admitted request proceeds; and after waiting at least 1/15 s the
next request is admitted again. -/
theorem rateLimiter_burst (next : Request → Response × Bool) (r : Request) (t : ℚ)
    (ht : 1/15 ≤ t) :
    (runAllows (mkLimiter 15 5) (List.replicate 6 0)).1 =
      [true, true, true, true, true, false] ∧
    (((runAllows (mkLimiter 15 5) (List.replicate 6 0)).2).allowAt t).1 = true ∧
    rateLimitMiddleware false next r = (httpError "rate limit exceeded" 429, false) ∧
    rateLimitMiddleware true next r = next r := by
  refine ⟨by rw [runAllows_burst], ?_, rfl, rfl⟩
  rw [runAllows_burst]
  simp only [Limiter.allowAt, Limiter.advance]
  have hmin : (1:ℚ) ≤ 5 ⊓ (0 + (t - 0) * 15) := le_min (by norm_num) (by linarith)
  rw [if_pos hmin]

/-- Witness for C9: waiting exactly 1/15 s after the exhausted burst admits
one further request. -/
theorem rateLimiter_burst_witness :
    (1:ℚ)/15 ≤ 1/15 ∧
    (((runAllows (mkLimiter 15 5) (List.replicate 6 0)).2).allowAt (1/15)).1 = true := by
  have h := rateLimiter_burst (fun _ => ({ status := 200 }, true)) {} (1/15) le_rfl
  exact ⟨le_rfl, h.2.1⟩

end SymptomTracker
